import Mathlib

/-!
Shallow embedding of the polygon-classification program
(`src/polygon.c` and `src/polygon.cpp`), with coordinates modelled as
exact rationals (`ℚ`) standing in for C `double`s.  The fixed absolute
tolerance `EPSILON = 1e-6` and every epsilon-guarded comparison are
translated literally from the source.
-/

namespace PolygonIntersection

/-- Tolerance `EPSILON = 1e-6`, `polygon.c` line 7 / `polygon.cpp` line 8. -/
def EPSILON : ℚ := 1 / 1000000

/-- Point structure, `polygon.c` lines 10-12. -/
@[ext]
structure Point where
  x : ℚ
  y : ℚ
deriving DecidableEq

/-- Line in implicit form `a·x + b·y + c = 0`, `polygon.c` lines 15-17. -/
structure Line where
  a : ℚ
  b : ℚ
  c : ℚ
deriving DecidableEq

/-- Segment between two endpoints, `polygon.c` lines 20-22. -/
structure LineSegment where
  p1 : Point
  p2 : Point
deriving DecidableEq

/-- Polygon as an ordered vertex list, `polygon.c` lines 25-28. -/
structure Polygon where
  vertices : List Point
deriving DecidableEq

/-- Function `areEqual`, `polygon.c` lines 31-33: absolute-epsilon equality. -/
def areEqual (a b : ℚ) : Bool := decide (|a - b| < EPSILON)

/-- Function `pointsEqual`, `polygon.c` lines 35-37. -/
def pointsEqual (p1 p2 : Point) : Bool := areEqual p1.x p2.x && areEqual p1.y p2.y

/-- Function `createLine`, `polygon.c` lines 44-50: line through two points. -/
def createLine (p1 p2 : Point) : Line :=
  ⟨p2.y - p1.y, p1.x - p2.x, p2.x * p1.y - p1.x * p2.y⟩

/-- The value `a·x + b·y + c` tested by `lineContains` (`polygon.c` line 53). -/
def lineVal (line : Line) (p : Point) : ℚ := line.a * p.x + line.b * p.y + line.c

/-- Function `lineContains`, `polygon.c` lines 52-54. -/
def lineContains (line : Line) (p : Point) : Bool := areEqual (lineVal line p) 0

/-- Function `lineIntersection`, `polygon.c` lines 56-64: Cramer's rule behind an
epsilon guard on the determinant; `none` models `return false`. -/
def lineIntersection (line1 line2 : Line) : Option Point :=
  let determinant := line1.a * line2.b - line2.a * line1.b
  if areEqual determinant 0 then none
  else some ⟨(line1.b * line2.c - line2.b * line1.c) / determinant,
             (line2.a * line1.c - line1.a * line2.c) / determinant⟩

/-- Function `segmentContains`, `polygon.c` lines 67-76: on the underlying line and
inside the inclusive bounding box. -/
def segmentContains (seg : LineSegment) (p : Point) : Bool :=
  let line := createLine seg.p1 seg.p2
  lineContains line p &&
  (decide (min seg.p1.x seg.p2.x ≤ p.x) && decide (p.x ≤ max seg.p1.x seg.p2.x) &&
   decide (min seg.p1.y seg.p2.y ≤ p.y) && decide (p.y ≤ max seg.p1.y seg.p2.y))

/-- Function `segmentIntersection`, `polygon.c` lines 78-87. -/
def segmentIntersection (seg1 seg2 : LineSegment) : Option Point :=
  let line1 := createLine seg1.p1 seg1.p2
  let line2 := createLine seg2.p1 seg2.p2
  match lineIntersection line1 line2 with
  | none => none
  | some result =>
    if segmentContains seg1 result && segmentContains seg2 result then some result else none

/-- Default point used to translate C array indexing out of bounds
(never reached for indices `< size`). -/
def origin : Point := ⟨0, 0⟩

/-- Edge `i` of a polygon: vertex `i` to vertex `(i+1) mod n`
(`polygon.c` lines 90-97). -/
def edgeAt (poly : Polygon) (i : Nat) : LineSegment :=
  ⟨poly.vertices.getD i origin, poly.vertices.getD ((i + 1) % poly.vertices.length) origin⟩

/-- Function `getEdges`, `polygon.c` lines 90-97. -/
def getEdges (poly : Polygon) : List LineSegment :=
  (List.range poly.vertices.length).map (edgeAt poly)

/-- Function `areCollinear`, `polygon.c` lines 99-102: both endpoints of `seg2`
lie (within epsilon) on the line through `seg1`. -/
def areCollinear (seg1 seg2 : LineSegment) : Bool :=
  let line := createLine seg1.p1 seg1.p2
  lineContains line seg2.p1 && lineContains line seg2.p2

/-- Helper `isBetween` nested in `edgesOverlap`, `polygon.c` lines 105-107. -/
def isBetween (a b c : ℚ) : Bool := decide (min a b ≤ c) && decide (c ≤ max a b)

/-- Function `edgesOverlap`, `polygon.c` lines 104-117: independent per-axis
bounding-box overlap. -/
def edgesOverlap (seg1 seg2 : LineSegment) : Bool :=
  (isBetween seg1.p1.x seg1.p2.x seg2.p1.x ||
   isBetween seg1.p1.x seg1.p2.x seg2.p2.x ||
   isBetween seg2.p1.x seg2.p2.x seg1.p1.x ||
   isBetween seg2.p1.x seg2.p2.x seg1.p2.x) &&
  (isBetween seg1.p1.y seg1.p2.y seg2.p1.y ||
   isBetween seg1.p1.y seg1.p2.y seg2.p2.y ||
   isBetween seg2.p1.y seg2.p2.y seg1.p1.y ||
   isBetween seg2.p1.y seg2.p2.y seg1.p2.y)

/-- The loop body of `polygonContains` (`polygon.c` lines 119-139):
early `return true` on an edge hit or a ray/edge epsilon coincidence,
otherwise count the strict crossings of the rightward horizontal ray. -/
def containsLoop (p : Point) : List LineSegment → Nat → Bool
  | [], count => count % 2 == 1
  | edge :: rest, count =>
    if segmentContains edge p then true
    else if areEqual edge.p1.y edge.p2.y then containsLoop p rest count
    else if decide (p.y < min edge.p1.y edge.p2.y) || decide (p.y > max edge.p1.y edge.p2.y) then
      containsLoop p rest count
    else
      let xIntersect := (p.y - edge.p1.y) * (edge.p2.x - edge.p1.x) / (edge.p2.y - edge.p1.y)
        + edge.p1.x
      if areEqual xIntersect p.x then true
      else if decide (xIntersect > p.x) then containsLoop p rest (count + 1)
      else containsLoop p rest count

/-- Function `polygonContains`, `polygon.c` lines 119-139 (identical to
`Polygon::contains`, `polygon.cpp` lines 113-134). -/
def polygonContains (poly : Polygon) (p : Point) : Bool :=
  containsLoop p (getEdges poly) 0

/-- The four classification labels returned (as strings) by both sources. -/
inductive Label where
  | Intersecting
  | Touching
  | DisjointEnclosed
  | DisjointOutside
deriving DecidableEq

/-- The `isIntersecting` double loop, `polygon.c` lines 156-165 /
`polygon.cpp` lines 169-183: some edge pair meets at a point that is not
epsilon-equal to any of the four endpoints. -/
def intersectingCheck (poly1 poly2 : Polygon) : Bool :=
  (getEdges poly1).any fun e1 => (getEdges poly2).any fun e2 =>
    match segmentIntersection e1 e2 with
    | some pt =>
      !pointsEqual pt e1.p1 && !pointsEqual pt e1.p2 &&
      !pointsEqual pt e2.p1 && !pointsEqual pt e2.p2
    | none => false

/-- One vertex-on-edge loop nest: some edge of `poly1` contains
(`segmentContains`) some vertex of `poly2`. -/
def vertexCheck (poly1 poly2 : Polygon) : Bool :=
  (getEdges poly1).any fun e => poly2.vertices.any fun v => segmentContains e v

/-- The collinear-overlap loop nest, `polygon.c` line 153 /
`polygon.cpp` lines 160-167. -/
def collinearCheck (poly1 poly2 : Polygon) : Bool :=
  (getEdges poly1).any fun e1 => (getEdges poly2).any fun e2 =>
    areCollinear e1 e2 && edgesOverlap e1 e2

/-- The `isTouching` flag of the C implementation, `polygon.c` lines
147-175: one interleaved double loop over index `j` (vertex `j` of
`poly2` paired with edge `j` of `poly2`), then a second loop checking
vertices of `poly1` against edges of `poly2`. -/
def touchingLoopC (poly1 poly2 : Polygon) : Bool :=
  ((getEdges poly1).any fun e1 =>
    (poly2.vertices.zip (getEdges poly2)).any fun ve =>
      segmentContains e1 ve.1 || (areCollinear e1 ve.2 && edgesOverlap e1 ve.2)) ||
  vertexCheck poly2 poly1

/-- The `isTouching` flag of the C++ implementation, `polygon.cpp` lines
140-167: three separate loop nests. -/
def touchingLoopCpp (self other : Polygon) : Bool :=
  vertexCheck self other || vertexCheck other self || collinearCheck self other

/-- The full-containment loop: every vertex of `poly1` is inside `poly2`
(`polygon.c` lines 191-196). -/
def containsAllCheck (poly1 poly2 : Polygon) : Bool :=
  poly1.vertices.all fun v => polygonContains poly2 v

/-- Function `classifyPolygons`, `polygon.c` lines 141-210 (procedural C version). -/
def classifyPolygons (poly1 poly2 : Polygon) : Label :=
  if intersectingCheck poly1 poly2 then Label.Intersecting
  else if touchingLoopC poly1 poly2 then Label.Touching
  else if containsAllCheck poly1 poly2 || containsAllCheck poly2 poly1 then
    Label.DisjointEnclosed
  else Label.DisjointOutside

/-- Method `Polygon::classify`, `polygon.cpp` lines 136-215 (object-oriented
C++ version); differs from `classifyPolygons` only in how the touching
loops are arranged. -/
def Polygon.classify (self other : Polygon) : Label :=
  if intersectingCheck self other then Label.Intersecting
  else if touchingLoopCpp self other then Label.Touching
  else if containsAllCheck self other || containsAllCheck other self then
    Label.DisjointEnclosed
  else Label.DisjointOutside

/-! ### Specification-side predicates -/

/-- Exact (mathematical) membership of a point on a segment: `p` is a
convex combination of the endpoints.  Used to state simplicity and the
boundary claims. -/
def OnSeg (seg : LineSegment) (p : Point) : Prop :=
  ∃ t : ℚ, 0 ≤ t ∧ t ≤ 1 ∧ p.x = seg.p1.x + t * (seg.p2.x - seg.p1.x) ∧
    p.y = seg.p1.y + t * (seg.p2.y - seg.p1.y)

/-- A simple polygon: two distinct edges meet only at shared endpoints. -/
def IsSimple (poly : Polygon) : Prop :=
  ∀ i j, i < poly.vertices.length → j < poly.vertices.length → i ≠ j →
    ∀ p, OnSeg (edgeAt poly i) p → OnSeg (edgeAt poly j) p →
      (p = (edgeAt poly i).p1 ∨ p = (edgeAt poly i).p2) ∧
      (p = (edgeAt poly j).p1 ∨ p = (edgeAt poly j).p2)

/-- Some edge pair crosses at a point not epsilon-equal to any of the four
endpoints (the condition detected by `intersectingCheck`). -/
def IntersectingProp (poly1 poly2 : Polygon) : Prop :=
  ∃ e1 ∈ getEdges poly1, ∃ e2 ∈ getEdges poly2, ∃ p,
    segmentIntersection e1 e2 = some p ∧
    pointsEqual p e1.p1 = false ∧ pointsEqual p e1.p2 = false ∧
    pointsEqual p e2.p1 = false ∧ pointsEqual p e2.p2 = false

/-- Some edge of `poly1` contains (within epsilon) some vertex of `poly2`. -/
def VertexTouchProp (poly1 poly2 : Polygon) : Prop :=
  ∃ e ∈ getEdges poly1, ∃ v ∈ poly2.vertices, segmentContains e v = true

/-- Some edge of `poly1` and some edge of `poly2` pass the collinearity
test (line built from the `poly1` edge) and the per-axis bounding-box
overlap test. -/
def CollinearTouchProp (poly1 poly2 : Polygon) : Prop :=
  ∃ e1 ∈ getEdges poly1, ∃ e2 ∈ getEdges poly2,
    areCollinear e1 e2 = true ∧ edgesOverlap e1 e2 = true

/-- The condition detected by the touching loops of either implementation. -/
def TouchingProp (poly1 poly2 : Polygon) : Prop :=
  VertexTouchProp poly1 poly2 ∨ VertexTouchProp poly2 poly1 ∨ CollinearTouchProp poly1 poly2

/-- Every vertex of `poly1` passes the point-in-polygon test of `poly2`. -/
def AllInProp (poly1 poly2 : Polygon) : Prop :=
  ∀ v ∈ poly1.vertices, polygonContains poly2 v = true

/-! ### Concrete example data for witnesses -/

/-- Unit right triangle. -/
def triEx : Polygon := ⟨[⟨0, 0⟩, ⟨1, 0⟩, ⟨0, 1⟩]⟩

/-- Unit square at the origin. -/
def sqEx1 : Polygon := ⟨[⟨0, 0⟩, ⟨1, 0⟩, ⟨1, 1⟩, ⟨0, 1⟩]⟩

/-- Unit square far away from `sqEx1`. -/
def sqEx2 : Polygon := ⟨[⟨10, 10⟩, ⟨11, 10⟩, ⟨11, 11⟩, ⟨10, 11⟩]⟩

/-- Tiny triangle near `(5, 0)`: its edges have length about `1e-8`, so
its line coefficients are so small that far-away points pass the
epsilon test of `lineContains`. -/
def tinyTri : Polygon := ⟨[⟨5, 0⟩, ⟨5 + 1/100000000, 0⟩, ⟨5, 1/100000000⟩]⟩

/-- Large triangle whose diagonal edge's bounding box covers `tinyTri`
while the triangle's edges stay far from it. -/
def bigTri : Polygon := ⟨[⟨-10, -10⟩, ⟨10, 10⟩, ⟨10, -10⟩]⟩

/-- The vertical line `x = 0`. -/
def lineEx1 : Line := ⟨1, 0, 0⟩

/-- The horizontal line `y = 1`. -/
def lineEx2 : Line := ⟨0, 1, -1⟩

/-- Example point `(0, 0)`. -/
def pointEx1 : Point := ⟨0, 0⟩

/-- Example point `(0, 1)`. -/
def pointEx2 : Point := ⟨0, 1⟩

/-! ### Basic lemmas about the epsilon primitives -/

lemma epsilon_pos : (0 : ℚ) < EPSILON := by norm_num [EPSILON]

lemma areEqual_self (a : ℚ) : areEqual a a = true := by
  simp only [areEqual, decide_eq_true_eq, sub_self, abs_zero]
  exact epsilon_pos

lemma areEqual_false_iff (a b : ℚ) : areEqual a b = false ↔ EPSILON ≤ |a - b| := by
  simp only [areEqual, decide_eq_false_iff_not, not_lt]

lemma pointsEqual_self (p : Point) : pointsEqual p p = true := by
  simp [pointsEqual, areEqual_self]

lemma segmentContains_eq_true_iff (seg : LineSegment) (p : Point) :
    segmentContains seg p = true ↔
      lineContains (createLine seg.p1 seg.p2) p = true ∧
      min seg.p1.x seg.p2.x ≤ p.x ∧ p.x ≤ max seg.p1.x seg.p2.x ∧
      min seg.p1.y seg.p2.y ≤ p.y ∧ p.y ≤ max seg.p1.y seg.p2.y := by
  simp [segmentContains, Bool.and_eq_true, decide_eq_true_eq, and_assoc]

/-! ### Exact segment membership versus the code's epsilon tests -/

lemma onSeg_lineVal {seg : LineSegment} {p : Point} (h : OnSeg seg p) :
    lineVal (createLine seg.p1 seg.p2) p = 0 := by
  obtain ⟨t, _, _, hx, hy⟩ := h
  rw [lineVal, createLine, hx, hy]
  ring

lemma between_of_unit (u v t : ℚ) (h0 : 0 ≤ t) (h1 : t ≤ 1) :
    min u v ≤ u + t * (v - u) ∧ u + t * (v - u) ≤ max u v := by
  rcases le_total u v with h | h
  · rw [min_eq_left h, max_eq_right h]
    constructor <;> nlinarith
  · rw [min_eq_right h, max_eq_left h]
    constructor <;> nlinarith

lemma segmentContains_of_onSeg {seg : LineSegment} {p : Point} (h : OnSeg seg p) :
    segmentContains seg p = true := by
  have hl := onSeg_lineVal h
  obtain ⟨t, h0, h1, hx, hy⟩ := h
  rw [segmentContains_eq_true_iff]
  refine ⟨?_, ?_, ?_, ?_, ?_⟩
  · rw [lineContains, hl, areEqual_self]
  · rw [hx]; exact (between_of_unit _ _ t h0 h1).1
  · rw [hx]; exact (between_of_unit _ _ t h0 h1).2
  · rw [hy]; exact (between_of_unit _ _ t h0 h1).1
  · rw [hy]; exact (between_of_unit _ _ t h0 h1).2

lemma t_mem_unit {u v w : ℚ} (hne : u ≠ v) (h1 : min u v ≤ w) (h2 : w ≤ max u v) :
    0 ≤ (w - u) / (v - u) ∧ (w - u) / (v - u) ≤ 1 := by
  rcases hne.lt_or_lt with h | h
  · rw [min_eq_left h.le] at h1
    rw [max_eq_right h.le] at h2
    have hd : 0 < v - u := by linarith
    constructor
    · exact div_nonneg (by linarith) hd.le
    · rw [div_le_one hd]; linarith
  · rw [min_eq_right h.le] at h1
    rw [max_eq_left h.le] at h2
    have hd : v - u < 0 := by linarith
    constructor
    · rw [div_nonneg_iff]
      right
      exact ⟨by linarith, hd.le⟩
    · rw [div_le_one_iff]
      right; right
      exact ⟨hd, by linarith⟩

lemma onSeg_param {x1 y1 x2 y2 px py : ℚ}
    (hl : (y2 - y1) * px + (x1 - x2) * py + (x2 * y1 - x1 * y2) = 0)
    (hx1 : min x1 x2 ≤ px) (hx2 : px ≤ max x1 x2)
    (hy1 : min y1 y2 ≤ py) (hy2 : py ≤ max y1 y2) :
    ∃ t : ℚ, 0 ≤ t ∧ t ≤ 1 ∧ px = x1 + t * (x2 - x1) ∧ py = y1 + t * (y2 - y1) := by
  rcases eq_or_ne x1 x2 with hx | hx
  · rcases eq_or_ne y1 y2 with hy | hy
    · refine ⟨0, le_refl 0, zero_le_one, ?_, ?_⟩
      · rw [← hx] at hx1 hx2
        simp only [min_self, max_self] at hx1 hx2
        have : px = x1 := le_antisymm hx2 hx1
        rw [this]; ring
      · rw [← hy] at hy1 hy2
        simp only [min_self, max_self] at hy1 hy2
        have : py = y1 := le_antisymm hy2 hy1
        rw [this]; ring
    · obtain ⟨ht0, ht1⟩ := t_mem_unit hy hy1 hy2
      have hyd : y2 - y1 ≠ 0 := sub_ne_zero.mpr (Ne.symm hy)
      refine ⟨(py - y1) / (y2 - y1), ht0, ht1, ?_, ?_⟩
      · rw [← hx] at hx1 hx2
        simp only [min_self, max_self] at hx1 hx2
        have : px = x1 := le_antisymm hx2 hx1
        rw [this, ← hx]; ring
      · rw [div_mul_cancel₀ _ hyd]; ring
  · obtain ⟨ht0, ht1⟩ := t_mem_unit hx hx1 hx2
    have hxd : x2 - x1 ≠ 0 := sub_ne_zero.mpr (Ne.symm hx)
    have hcross : (y2 - y1) * (px - x1) = (py - y1) * (x2 - x1) := by linear_combination hl
    refine ⟨(px - x1) / (x2 - x1), ht0, ht1, ?_, ?_⟩
    · rw [div_mul_cancel₀ _ hxd]; ring
    · field_simp
      linear_combination -hcross

lemma onSeg_of_lineVal_bbox {seg : LineSegment} {p : Point}
    (hl : lineVal (createLine seg.p1 seg.p2) p = 0)
    (hx1 : min seg.p1.x seg.p2.x ≤ p.x) (hx2 : p.x ≤ max seg.p1.x seg.p2.x)
    (hy1 : min seg.p1.y seg.p2.y ≤ p.y) (hy2 : p.y ≤ max seg.p1.y seg.p2.y) :
    OnSeg seg p := by
  rw [lineVal, createLine] at hl
  exact onSeg_param hl hx1 hx2 hy1 hy2

/-! ### Lemmas about `lineIntersection` and `segmentIntersection` -/

lemma lineIntersection_eq_none_iff (l1 l2 : Line) :
    lineIntersection l1 l2 = none ↔ areEqual (l1.a * l2.b - l2.a * l1.b) 0 = true := by
  cases h : areEqual (l1.a * l2.b - l2.a * l1.b) 0 <;> simp [lineIntersection, h]

lemma lineIntersection_eq_some (l1 l2 : Line)
    (h : areEqual (l1.a * l2.b - l2.a * l1.b) 0 = false) :
    lineIntersection l1 l2 =
      some ⟨(l1.b * l2.c - l2.b * l1.c) / (l1.a * l2.b - l2.a * l1.b),
            (l2.a * l1.c - l1.a * l2.c) / (l1.a * l2.b - l2.a * l1.b)⟩ := by
  simp [lineIntersection, h]

lemma lineIntersection_self (l : Line) : lineIntersection l l = none := by
  apply (lineIntersection_eq_none_iff l l).mpr
  have h : l.a * l.b - l.a * l.b = 0 := by ring
  rw [h, areEqual_self]

lemma lineIntersection_lineVal {l1 l2 : Line} {p : Point}
    (h : lineIntersection l1 l2 = some p) :
    lineVal l1 p = 0 ∧ lineVal l2 p = 0 := by
  cases hd : areEqual (l1.a * l2.b - l2.a * l1.b) 0 with
  | true =>
    rw [(lineIntersection_eq_none_iff l1 l2).mpr hd] at h
    exact absurd h (by simp)
  | false =>
    have hne : l1.a * l2.b - l2.a * l1.b ≠ 0 := by
      intro h0
      rw [h0, areEqual_self] at hd
      exact absurd hd (by simp)
    rw [lineIntersection_eq_some l1 l2 hd] at h
    have hp := Option.some.inj h
    rw [← hp]
    constructor
    · show l1.a * _ + l1.b * _ + l1.c = 0
      field_simp
      ring
    · show l2.a * _ + l2.b * _ + l2.c = 0
      field_simp
      ring

lemma areEqual_neg_zero (a : ℚ) : areEqual (-a) 0 = areEqual a 0 := by
  simp only [areEqual, sub_zero, abs_neg]

lemma lineIntersection_comm (l1 l2 : Line) :
    lineIntersection l1 l2 = lineIntersection l2 l1 := by
  have hswap : l2.a * l1.b - l1.a * l2.b = -(l1.a * l2.b - l2.a * l1.b) := by ring
  cases h : areEqual (l1.a * l2.b - l2.a * l1.b) 0 with
  | true =>
    have h2 : areEqual (l2.a * l1.b - l1.a * l2.b) 0 = true := by
      rw [hswap, areEqual_neg_zero, h]
    rw [(lineIntersection_eq_none_iff l1 l2).mpr h,
        (lineIntersection_eq_none_iff l2 l1).mpr h2]
  | false =>
    have h2 : areEqual (l2.a * l1.b - l1.a * l2.b) 0 = false := by
      rw [hswap, areEqual_neg_zero, h]
    rw [lineIntersection_eq_some l1 l2 h, lineIntersection_eq_some l2 l1 h2]
    have hx : (l2.b * l1.c - l1.b * l2.c) / (l2.a * l1.b - l1.a * l2.b) =
        (l1.b * l2.c - l2.b * l1.c) / (l1.a * l2.b - l2.a * l1.b) := by
      rw [show l2.b * l1.c - l1.b * l2.c = -(l1.b * l2.c - l2.b * l1.c) from by ring,
          hswap, neg_div_neg_eq]
    have hy : (l1.a * l2.c - l2.a * l1.c) / (l2.a * l1.b - l1.a * l2.b) =
        (l2.a * l1.c - l1.a * l2.c) / (l1.a * l2.b - l2.a * l1.b) := by
      rw [show l1.a * l2.c - l2.a * l1.c = -(l2.a * l1.c - l1.a * l2.c) from by ring,
          hswap, neg_div_neg_eq]
    rw [hx, hy]

lemma segmentIntersection_elim {s1 s2 : LineSegment} {p : Point}
    (h : segmentIntersection s1 s2 = some p) :
    lineIntersection (createLine s1.p1 s1.p2) (createLine s2.p1 s2.p2) = some p ∧
    segmentContains s1 p = true ∧ segmentContains s2 p = true := by
  unfold segmentIntersection at h
  dsimp only at h
  split at h
  · exact absurd h (by simp)
  · rename_i q heq
    split at h
    · rename_i hc
      have hqp := Option.some.inj h
      subst hqp
      exact ⟨heq, (Bool.and_eq_true _ _).mp hc⟩
    · exact absurd h (by simp)

lemma segmentIntersection_intro {s1 s2 : LineSegment} {p : Point}
    (hli : lineIntersection (createLine s1.p1 s1.p2) (createLine s2.p1 s2.p2) = some p)
    (h1 : segmentContains s1 p = true) (h2 : segmentContains s2 p = true) :
    segmentIntersection s1 s2 = some p := by
  unfold segmentIntersection
  dsimp only
  rw [hli]
  simp only [h1, h2, Bool.and_self, if_true]

lemma segmentIntersection_comm (s1 s2 : LineSegment) :
    segmentIntersection s1 s2 = segmentIntersection s2 s1 := by
  unfold segmentIntersection
  dsimp only
  rw [lineIntersection_comm (createLine s1.p1 s1.p2)]
  cases h : lineIntersection (createLine s2.p1 s2.p2) (createLine s1.p1 s1.p2) with
  | none => rfl
  | some q =>
    dsimp only
    rw [Bool.and_comm]

/-! ### List-level lemmas for the loop flags -/

lemma bool_eq_of_iff {a b : Bool} (h : a = true ↔ b = true) : a = b := by
  cases a <;> cases b <;> simp_all

lemma any_or_split {α : Type} (l : List α) (f g : α → Bool) :
    (l.any fun x => f x || g x) = (l.any f || l.any g) := by
  induction l with
  | nil => rfl
  | cons a l ih =>
    simp only [List.any_cons, ih]
    cases f a <;> cases g a <;> cases l.any f <;> cases l.any g <;> rfl

lemma zip_any_eq {α β : Type} (as : List α) (bs : List β) (f : α → Bool) (g : β → Bool)
    (h : as.length = bs.length) :
    ((as.zip bs).any fun x => f x.1 || g x.2) = (as.any f || bs.any g) := by
  induction as generalizing bs with
  | nil =>
    cases bs with
    | nil => rfl
    | cons b bs => simp at h
  | cons a as ih =>
    cases bs with
    | nil => simp at h
    | cons b bs =>
      simp only [List.zip_cons_cons, List.any_cons, ih bs (by simpa using h)]
      cases f a <;> cases g b <;> cases as.any f <;> cases bs.any g <;> rfl

lemma anyCongr {α : Type} {l : List α} {f g : α → Bool} (h : ∀ x ∈ l, f x = g x) :
    l.any f = l.any g := by
  induction l with
  | nil => rfl
  | cons a l ih =>
    simp only [List.any_cons, h a (by simp)]
    rw [ih fun x hx => h x (by simp [hx])]

lemma getEdges_length (poly : Polygon) : (getEdges poly).length = poly.vertices.length := by
  simp [getEdges]

/-- The C touching flag splits into the three named loop checks. -/
lemma touchingLoopC_eq (poly1 poly2 : Polygon) :
    touchingLoopC poly1 poly2 =
      (vertexCheck poly1 poly2 || collinearCheck poly1 poly2 || vertexCheck poly2 poly1) := by
  unfold touchingLoopC
  have h1 : ((getEdges poly1).any fun e1 =>
      (poly2.vertices.zip (getEdges poly2)).any fun ve =>
        segmentContains e1 ve.1 || (areCollinear e1 ve.2 && edgesOverlap e1 ve.2)) =
      ((getEdges poly1).any fun e1 =>
        (poly2.vertices.any fun v => segmentContains e1 v) ||
        ((getEdges poly2).any fun e2 => areCollinear e1 e2 && edgesOverlap e1 e2)) := by
    apply anyCongr
    intro e1 _
    exact zip_any_eq poly2.vertices (getEdges poly2) (fun v => segmentContains e1 v)
      (fun e2 => areCollinear e1 e2 && edgesOverlap e1 e2) (getEdges_length poly2).symm
  rw [h1, any_or_split]
  rfl

/-! ### Characterizations of the Boolean checks -/

lemma intersectingCheck_iff (poly1 poly2 : Polygon) :
    intersectingCheck poly1 poly2 = true ↔ IntersectingProp poly1 poly2 := by
  unfold intersectingCheck IntersectingProp
  simp only [List.any_eq_true]
  constructor
  · rintro ⟨e1, he1, e2, he2, h⟩
    cases hseg : segmentIntersection e1 e2 with
    | none => rw [hseg] at h; exact absurd h (by simp)
    | some pt =>
      rw [hseg] at h
      simp only [Bool.and_eq_true, Bool.not_eq_true'] at h
      exact ⟨e1, he1, e2, he2, pt, hseg, h.1.1.1, h.1.1.2, h.1.2, h.2⟩
  · rintro ⟨e1, he1, e2, he2, pt, hseg, h1, h2, h3, h4⟩
    refine ⟨e1, he1, e2, he2, ?_⟩
    rw [hseg]
    simp only [Bool.and_eq_true, Bool.not_eq_true']
    exact ⟨⟨⟨h1, h2⟩, h3⟩, h4⟩

lemma vertexCheck_iff (poly1 poly2 : Polygon) :
    vertexCheck poly1 poly2 = true ↔ VertexTouchProp poly1 poly2 := by
  simp [vertexCheck, VertexTouchProp, List.any_eq_true]

lemma collinearCheck_iff (poly1 poly2 : Polygon) :
    collinearCheck poly1 poly2 = true ↔ CollinearTouchProp poly1 poly2 := by
  simp [collinearCheck, CollinearTouchProp, List.any_eq_true, Bool.and_eq_true]

lemma touchingLoopC_iff (poly1 poly2 : Polygon) :
    touchingLoopC poly1 poly2 = true ↔ TouchingProp poly1 poly2 := by
  rw [touchingLoopC_eq]
  simp only [Bool.or_eq_true, vertexCheck_iff, collinearCheck_iff, TouchingProp]
  tauto

lemma touchingLoopCpp_iff (poly1 poly2 : Polygon) :
    touchingLoopCpp poly1 poly2 = true ↔ TouchingProp poly1 poly2 := by
  simp only [touchingLoopCpp, Bool.or_eq_true, vertexCheck_iff, collinearCheck_iff, TouchingProp]
  tauto

lemma containsAllCheck_iff (poly1 poly2 : Polygon) :
    containsAllCheck poly1 poly2 = true ↔ AllInProp poly1 poly2 := by
  simp [containsAllCheck, AllInProp, List.all_eq_true]

/-! ### Lemmas for the boundary and self-classification claims -/

lemma containsLoop_of_exists {p : Point} {edges : List LineSegment} (count : Nat)
    (h : ∃ e ∈ edges, segmentContains e p = true) :
    containsLoop p edges count = true := by
  induction edges generalizing count with
  | nil => simp at h
  | cons e rest ih =>
    obtain ⟨e', he', hsc⟩ := h
    rcases List.mem_cons.mp he' with rfl | hmem
    · unfold containsLoop
      rw [if_pos hsc]
    · have hrest : ∀ c : Nat, containsLoop p rest c = true :=
        fun c => ih c ⟨e', hmem, hsc⟩
      unfold containsLoop
      by_cases h1 : segmentContains e p = true
      · rw [if_pos h1]
      · rw [if_neg h1]
        by_cases h2 : areEqual e.p1.y e.p2.y = true
        · rw [if_pos h2]; exact hrest count
        · rw [if_neg h2]
          by_cases h3 : (decide (p.y < min e.p1.y e.p2.y) ||
              decide (p.y > max e.p1.y e.p2.y)) = true
          · rw [if_pos h3]; exact hrest count
          · rw [if_neg h3]
            dsimp only
            by_cases h4 : areEqual
                ((p.y - e.p1.y) * (e.p2.x - e.p1.x) / (e.p2.y - e.p1.y) + e.p1.x) p.x = true
            · rw [if_pos h4]
            · rw [if_neg h4]
              by_cases h5 : decide
                  ((p.y - e.p1.y) * (e.p2.x - e.p1.x) / (e.p2.y - e.p1.y) + e.p1.x > p.x) = true
              · rw [if_pos h5]; exact hrest (count + 1)
              · rw [if_neg h5]; exact hrest count

lemma segmentContains_left (seg : LineSegment) : segmentContains seg seg.p1 = true := by
  rw [segmentContains_eq_true_iff]
  refine ⟨?_, min_le_left _ _, le_max_left _ _, min_le_left _ _, le_max_left _ _⟩
  unfold lineContains
  have h : lineVal (createLine seg.p1 seg.p2) seg.p1 = 0 := by
    simp only [lineVal, createLine]
    ring
  rw [h]
  exact areEqual_self 0

lemma edgeAt_mem_getEdges {poly : Polygon} {i : Nat} (h : i < poly.vertices.length) :
    edgeAt poly i ∈ getEdges poly := by
  unfold getEdges
  exact List.mem_map.mpr ⟨i, List.mem_range.mpr h, rfl⟩

lemma getEdges_mem_elim {poly : Polygon} {e : LineSegment} (h : e ∈ getEdges poly) :
    ∃ i, i < poly.vertices.length ∧ edgeAt poly i = e := by
  unfold getEdges at h
  obtain ⟨i, hi, he⟩ := List.mem_map.mp h
  exact ⟨i, List.mem_range.mp hi, he⟩

/-- Two segments sharing the middle vertex `b` of a proper corner meet
only at `b`. -/
lemma seg_adjacent {a b c : Point}
    (h : (b.x - a.x) * (c.y - b.y) - (b.y - a.y) * (c.x - b.x) ≠ 0)
    {p : Point} (h1 : OnSeg ⟨a, b⟩ p) (h2 : OnSeg ⟨b, c⟩ p) : p = b := by
  obtain ⟨t, ht0, ht1, hx1, hy1⟩ := h1
  obtain ⟨s, hs0, hs1, hx2, hy2⟩ := h2
  dsimp only at hx1 hy1 hx2 hy2
  have ex : (t - 1) * (b.x - a.x) - s * (c.x - b.x) = 0 := by linear_combination hx2 - hx1
  have ey : (t - 1) * (b.y - a.y) - s * (c.y - b.y) = 0 := by linear_combination hy2 - hy1
  have key : (t - 1) * ((b.x - a.x) * (c.y - b.y) - (b.y - a.y) * (c.x - b.x)) = 0 := by
    linear_combination (c.y - b.y) * ex - (c.x - b.x) * ey
  have ht : t = 1 := by
    rcases mul_eq_zero.mp key with h0 | h0
    · exact sub_eq_zero.mp h0
    · exact absurd h0 h
  ext
  · rw [hx1, ht]; ring
  · rw [hy1, ht]; ring

/-- A triangle with non-collinear vertices is a simple polygon. -/
lemma triangle_simple (v0 v1 v2 : Point)
    (h : (v1.x - v0.x) * (v2.y - v0.y) - (v1.y - v0.y) * (v2.x - v0.x) ≠ 0) :
    IsSimple ⟨[v0, v1, v2]⟩ := by
  intro i j hi hj hij p hpi hpj
  have hi3 : i < 3 := by simpa using hi
  have hj3 : j < 3 := by simpa using hj
  have h01 : (v1.x - v0.x) * (v2.y - v1.y) - (v1.y - v0.y) * (v2.x - v1.x) ≠ 0 :=
    fun h0 => h (by linear_combination h0)
  have h12 : (v2.x - v1.x) * (v0.y - v2.y) - (v2.y - v1.y) * (v0.x - v2.x) ≠ 0 :=
    fun h0 => h (by linear_combination h0)
  have h20 : (v0.x - v2.x) * (v1.y - v0.y) - (v0.y - v2.y) * (v1.x - v0.x) ≠ 0 :=
    fun h0 => h (by linear_combination h0)
  have e0 : edgeAt ⟨[v0, v1, v2]⟩ 0 = ⟨v0, v1⟩ := by simp [edgeAt]
  have e1 : edgeAt ⟨[v0, v1, v2]⟩ 1 = ⟨v1, v2⟩ := by simp [edgeAt]
  have e2 : edgeAt ⟨[v0, v1, v2]⟩ 2 = ⟨v2, v0⟩ := by simp [edgeAt]
  interval_cases i <;> interval_cases j <;> simp only [e0, e1, e2] at hpi hpj ⊢
  · exact absurd rfl hij
  · exact (fun hp => ⟨Or.inr hp, Or.inl hp⟩) (seg_adjacent h01 hpi hpj)
  · exact (fun hp => ⟨Or.inl hp, Or.inr hp⟩) (seg_adjacent h20 hpj hpi)
  · exact (fun hp => ⟨Or.inl hp, Or.inr hp⟩) (seg_adjacent h01 hpj hpi)
  · exact absurd rfl hij
  · exact (fun hp => ⟨Or.inr hp, Or.inl hp⟩) (seg_adjacent h12 hpi hpj)
  · exact (fun hp => ⟨Or.inr hp, Or.inl hp⟩) (seg_adjacent h20 hpi hpj)
  · exact (fun hp => ⟨Or.inl hp, Or.inr hp⟩) (seg_adjacent h12 hpj hpi)
  · exact absurd rfl hij

lemma intersectingCheck_symm (poly1 poly2 : Polygon) :
    intersectingCheck poly1 poly2 = intersectingCheck poly2 poly1 := by
  apply bool_eq_of_iff
  rw [intersectingCheck_iff, intersectingCheck_iff]
  constructor
  · rintro ⟨e1, he1, e2, he2, p, hseg, h1, h2, h3, h4⟩
    exact ⟨e2, he2, e1, he1, p, by rw [segmentIntersection_comm]; exact hseg, h3, h4, h1, h2⟩
  · rintro ⟨e2, he2, e1, he1, p, hseg, h3, h4, h1, h2⟩
    exact ⟨e1, he1, e2, he2, p, by rw [segmentIntersection_comm]; exact hseg, h1, h2, h3, h4⟩

/-! ### The claims -/

/-! ### The claims -/

/-- Claim C1: for every pair of polygons, `classify` returns the label
`Intersecting` if and only if some edge of the first and some edge of the
second have a segment intersection point that is not epsilon-equal to any
of the four endpoints of the two edges; this label takes precedence over
every other label.  (Proved for all vertex lists, so in particular for
simple polygons with at least 3 vertices.) -/
theorem claim1 (poly1 poly2 : Polygon) :
    classifyPolygons poly1 poly2 = Label.Intersecting ↔ IntersectingProp poly1 poly2 := by
  rw [← intersectingCheck_iff]
  unfold classifyPolygons
  cases h : intersectingCheck poly1 poly2 with
  | true => simp [h]
  | false =>
    cases ht : touchingLoopC poly1 poly2 <;>
      cases hc : (containsAllCheck poly1 poly2 || containsAllCheck poly2 poly1) <;>
        simp [h, ht, hc]

/-- Claim C2: `classify` returns `Touching` if and only if no edge pair
has an interior (non-endpoint) crossing, and either some vertex of one
polygon lies on some edge of the other (`segmentContains`), or some edge
of the first polygon and some edge of the second are collinear (both
endpoints of the second edge lie within epsilon on the first edge's
line) and their bounding boxes overlap on the x axis and on the y axis.
(Proved for all vertex lists.) -/
theorem claim2 (poly1 poly2 : Polygon) :
    classifyPolygons poly1 poly2 = Label.Touching ↔
      ¬ IntersectingProp poly1 poly2 ∧
        ((VertexTouchProp poly1 poly2 ∨ VertexTouchProp poly2 poly1) ∨
          CollinearTouchProp poly1 poly2) := by
  unfold classifyPolygons
  cases hI : intersectingCheck poly1 poly2 with
  | true =>
    have hIp : IntersectingProp poly1 poly2 := (intersectingCheck_iff _ _).mp hI
    simp [hI, hIp]
  | false =>
    have hIp : ¬ IntersectingProp poly1 poly2 := fun hp => by
      rw [(intersectingCheck_iff _ _).mpr hp] at hI; cases hI
    cases hT : touchingLoopC poly1 poly2 with
    | true =>
      have hTp : TouchingProp poly1 poly2 := (touchingLoopC_iff _ _).mp hT
      unfold TouchingProp at hTp
      simp [hI, hT, hIp]
      tauto
    | false =>
      have hTp : ¬ TouchingProp poly1 poly2 := fun hp => by
        rw [(touchingLoopC_iff _ _).mpr hp] at hT; cases hT
      unfold TouchingProp at hTp
      cases hC : (containsAllCheck poly1 poly2 || containsAllCheck poly2 poly1) <;>
        · simp [hI, hT, hC, hIp]
          tauto

/-- Claim C3: when `classify` detects neither an interior edge crossing
nor boundary contact, it returns `DisjointEnclosed` exactly when every
vertex of one polygon is contained in the other (point-in-polygon test),
and `DisjointOutside` otherwise. -/
theorem claim3 (poly1 poly2 : Polygon) (h1 : intersectingCheck poly1 poly2 = false)
    (h2 : touchingLoopC poly1 poly2 = false) :
    (classifyPolygons poly1 poly2 = Label.DisjointEnclosed ↔
      AllInProp poly1 poly2 ∨ AllInProp poly2 poly1) ∧
    (classifyPolygons poly1 poly2 = Label.DisjointOutside ↔
      ¬ (AllInProp poly1 poly2 ∨ AllInProp poly2 poly1)) := by
  unfold classifyPolygons
  cases hC : (containsAllCheck poly1 poly2 || containsAllCheck poly2 poly1) with
  | true =>
    have hCp : AllInProp poly1 poly2 ∨ AllInProp poly2 poly1 := by
      have hC' : containsAllCheck poly1 poly2 = true ∨ containsAllCheck poly2 poly1 = true := by
        simpa using hC
      rcases hC' with h | h
      · exact Or.inl ((containsAllCheck_iff _ _).mp h)
      · exact Or.inr ((containsAllCheck_iff _ _).mp h)
    simp [h1, h2, hC, hCp]
  | false =>
    have hCp : ¬ (AllInProp poly1 poly2 ∨ AllInProp poly2 poly1) := by
      rintro (h | h)
      · rw [(containsAllCheck_iff poly1 poly2).mpr h] at hC
        simp at hC
      · rw [(containsAllCheck_iff poly2 poly1).mpr h] at hC
        simp at hC
    simp [h1, h2, hC, hCp]

/-- Witness for claim C3: two far-apart unit squares trigger neither
check and are classified `DisjointOutside`. -/
theorem claim3_witness :
    intersectingCheck sqEx1 sqEx2 = false ∧ touchingLoopC sqEx1 sqEx2 = false ∧
    classifyPolygons sqEx1 sqEx2 = Label.DisjointOutside :=
  ⟨by decide!, by decide!,
   (claim3 sqEx1 sqEx2 (by decide!) (by decide!)).2.mpr (by unfold AllInProp; decide!)⟩

/-- Claim C6: `lineIntersection` reports no unique intersection (as a
negative result, not an error) exactly when the determinant is within
epsilon of zero, and otherwise returns exactly the Cramer's-rule point. -/
theorem claim6 (line1 line2 : Line) :
    (areEqual (line1.a * line2.b - line2.a * line1.b) 0 = true →
      lineIntersection line1 line2 = none) ∧
    (areEqual (line1.a * line2.b - line2.a * line1.b) 0 = false →
      lineIntersection line1 line2 =
        some ⟨(line1.b * line2.c - line2.b * line1.c) /
                (line1.a * line2.b - line2.a * line1.b),
              (line2.a * line1.c - line1.a * line2.c) /
                (line1.a * line2.b - line2.a * line1.b)⟩) :=
  ⟨fun h => (lineIntersection_eq_none_iff line1 line2).mpr h,
   fun h => lineIntersection_eq_some line1 line2 h⟩

/-- Witness for claim C6: two non-parallel concrete lines. -/
theorem claim6_witness :
    areEqual (lineEx1.a * lineEx2.b - lineEx2.a * lineEx1.b) 0 = false ∧
    lineIntersection lineEx1 lineEx2 =
      some ⟨(lineEx1.b * lineEx2.c - lineEx2.b * lineEx1.c) /
              (lineEx1.a * lineEx2.b - lineEx2.a * lineEx1.b),
            (lineEx2.a * lineEx1.c - lineEx1.a * lineEx2.c) /
              (lineEx1.a * lineEx2.b - lineEx2.a * lineEx1.b)⟩ :=
  ⟨by decide!, (claim6 lineEx1 lineEx2).2 (by decide!)⟩

/-- Claim C7: both division sites are epsilon-guarded.  If
`lineIntersection` produces a point (and hence divides), the determinant
has magnitude at least epsilon; and in the ray cast of the
point-in-polygon test, an edge that passes the horizontal-edge skip
(`areEqual v1.y v2.y = false`) has `|v2.y - v1.y|` at least epsilon, so no
division by a near-zero denominator occurs. -/
theorem claim7 (line1 line2 : Line) (v1 v2 : Point) :
    ((lineIntersection line1 line2).isSome = true →
      EPSILON ≤ |line1.a * line2.b - line2.a * line1.b|) ∧
    (areEqual v1.y v2.y = false → EPSILON ≤ |v2.y - v1.y|) := by
  constructor
  · intro h
    cases hd : areEqual (line1.a * line2.b - line2.a * line1.b) 0 with
    | true =>
      rw [(lineIntersection_eq_none_iff _ _).mpr hd] at h
      simp at h
    | false =>
      have hd' := (areEqual_false_iff _ _).mp hd
      rwa [sub_zero] at hd'
  · intro h
    have h' := (areEqual_false_iff _ _).mp h
    rwa [abs_sub_comm] at h'

/-- Witness for claim C7. -/
theorem claim7_witness :
    (lineIntersection lineEx1 lineEx2).isSome = true ∧
    areEqual pointEx1.y pointEx2.y = false ∧
    EPSILON ≤ |lineEx1.a * lineEx2.b - lineEx2.a * lineEx1.b| ∧
    EPSILON ≤ |pointEx2.y - pointEx1.y| :=
  ⟨by decide!, by decide!,
   (claim7 lineEx1 lineEx2 pointEx1 pointEx2).1 (by decide!),
   (claim7 lineEx1 lineEx2 pointEx1 pointEx2).2 (by decide!)⟩

/-- Claim C8 (round-trip): a point returned by `lineIntersection`
satisfies `lineContains` for both input lines (in the exact-rational
model the solved point satisfies both equations exactly, hence within
epsilon). -/
theorem claim8 (line1 line2 : Line) (p : Point)
    (h : lineIntersection line1 line2 = some p) :
    lineContains line1 p = true ∧ lineContains line2 p = true := by
  obtain ⟨h1, h2⟩ := lineIntersection_lineVal h
  constructor
  · unfold lineContains
    rw [h1]
    exact areEqual_self 0
  · unfold lineContains
    rw [h2]
    exact areEqual_self 0

/-- Witness for claim C8. -/
theorem claim8_witness :
    lineIntersection lineEx1 lineEx2 = some ⟨0, 1⟩ ∧
    lineContains lineEx1 ⟨0, 1⟩ = true ∧ lineContains lineEx2 ⟨0, 1⟩ = true :=
  ⟨by decide!, (claim8 lineEx1 lineEx2 ⟨0, 1⟩ (by decide!)).1,
   (claim8 lineEx1 lineEx2 ⟨0, 1⟩ (by decide!)).2⟩

/-- Claim C9: the procedural C implementation (`classifyPolygons`) and
the object-oriented C++ implementation (`Polygon.classify`) produce the
same label on every pair of polygons: the two sources implement the same
logic, differing only in the arrangement of the touching loops. -/
theorem claim9 (poly1 poly2 : Polygon) :
    classifyPolygons poly1 poly2 = Polygon.classify poly1 poly2 := by
  unfold classifyPolygons Polygon.classify
  rw [bool_eq_of_iff ((touchingLoopC_iff poly1 poly2).trans
    (touchingLoopCpp_iff poly1 poly2).symm)]

/-- Claim C4: classifying a simple polygon with at least 3 vertices
against itself yields `Touching`: every vertex lies on an edge of the
other copy, and no edge pair produces an interior crossing (identical
edges have determinant exactly zero, and by simplicity any crossing
point of two distinct edges is a shared endpoint, hence epsilon-equal to
an endpoint). -/
theorem claim4 (poly : Polygon) (h3 : 3 ≤ poly.vertices.length) (hs : IsSimple poly) :
    classifyPolygons poly poly = Label.Touching := by
  have hI : intersectingCheck poly poly = false := by
    cases hI0 : intersectingCheck poly poly with
    | false => rfl
    | true =>
      exfalso
      obtain ⟨e1, he1, e2, he2, pt, hseg, h1, h2, _, _⟩ := (intersectingCheck_iff _ _).mp hI0
      obtain ⟨hli, hc1, hc2⟩ := segmentIntersection_elim hseg
      by_cases heq : e1 = e2
      · subst heq
        rw [lineIntersection_self] at hli
        simp at hli
      · obtain ⟨i, hi, hei⟩ := getEdges_mem_elim he1
        obtain ⟨j, hj, hej⟩ := getEdges_mem_elim he2
        have hij : i ≠ j := fun hij0 => heq (by rw [← hei, ← hej, hij0])
        obtain ⟨hv1, hv2⟩ := lineIntersection_lineVal hli
        have hb1 := (segmentContains_eq_true_iff e1 pt).mp hc1
        have hb2 := (segmentContains_eq_true_iff e2 pt).mp hc2
        have ho1 : OnSeg e1 pt :=
          onSeg_of_lineVal_bbox hv1 hb1.2.1 hb1.2.2.1 hb1.2.2.2.1 hb1.2.2.2.2
        have ho2 : OnSeg e2 pt :=
          onSeg_of_lineVal_bbox hv2 hb2.2.1 hb2.2.2.1 hb2.2.2.2.1 hb2.2.2.2.2
        have hcon := hs i j hi hj hij pt (by rw [hei]; exact ho1) (by rw [hej]; exact ho2)
        rw [hei, hej] at hcon
        rcases hcon.1 with hp | hp
        · rw [hp, pointsEqual_self] at h1
          simp at h1
        · rw [hp, pointsEqual_self] at h2
          simp at h2
  have hT : touchingLoopC poly poly = true := by
    apply (touchingLoopC_iff _ _).mpr
    left
    have h0 : 0 < poly.vertices.length := by omega
    refine ⟨edgeAt poly 0, edgeAt_mem_getEdges h0, poly.vertices.getD 0 origin, ?_, ?_⟩
    · rw [List.getD_eq_getElem poly.vertices origin h0]
      exact List.getElem_mem h0
    · exact segmentContains_left (edgeAt poly 0)
  unfold classifyPolygons
  simp [hI, hT]

/-- Witness for claim C4: the unit triangle. -/
theorem claim4_witness : classifyPolygons triEx triEx = Label.Touching :=
  claim4 triEx (by decide) (triangle_simple ⟨0, 0⟩ ⟨1, 0⟩ ⟨0, 1⟩ (by decide!))

/-- Claim C5: every point lying exactly on some edge of a polygon passes
the point-in-polygon test (the boundary counts as inside): the edge loop
returns true at the first containing edge, and no earlier iteration can
return false. -/
theorem claim5 (poly : Polygon) (p : Point) (h : ∃ e ∈ getEdges poly, OnSeg e p) :
    polygonContains poly p = true := by
  obtain ⟨e, he, hOn⟩ := h
  unfold polygonContains
  exact containsLoop_of_exists 0 ⟨e, he, segmentContains_of_onSeg hOn⟩

/-- Witness for claim C5: the midpoint of the bottom edge of the unit
square. -/
theorem claim5_witness : polygonContains sqEx1 ⟨1/2, 0⟩ = true :=
  claim5 sqEx1 ⟨1/2, 0⟩
    ⟨⟨⟨0, 0⟩, ⟨1, 0⟩⟩, by decide!, 1/2, by decide!, by decide!, by decide!, by decide!⟩

/-- Counterexample to claim C10 as stated: classification is not
symmetric.  `tinyTri` is a simple triangle with edges of length about
`1e-8` near `(5, 0)`; `bigTri` is a simple triangle far from it whose
diagonal edge has a bounding box covering `tinyTri`.  Because
`areCollinear` builds the (unnormalized) line only from the first
polygon's edge, the endpoints of `bigTri`'s diagonal pass the epsilon
test against `tinyTri`'s tiny-coefficient lines, so
`classify(tinyTri, bigTri) = Touching`, while in the swapped order no
touching is detected and `classify(bigTri, tinyTri) =
DisjointEnclosed`. -/
theorem claim10_counterexample :
    IsSimple tinyTri ∧ IsSimple bigTri ∧
    3 ≤ tinyTri.vertices.length ∧ 3 ≤ bigTri.vertices.length ∧
    classifyPolygons tinyTri bigTri = Label.Touching ∧
    classifyPolygons bigTri tinyTri = Label.DisjointEnclosed ∧
    classifyPolygons tinyTri bigTri ≠ classifyPolygons bigTri tinyTri :=
  ⟨triangle_simple ⟨5, 0⟩ ⟨5 + 1/100000000, 0⟩ ⟨5, 1/100000000⟩ (by decide!),
   triangle_simple ⟨-10, -10⟩ ⟨10, 10⟩ ⟨10, -10⟩ (by decide!),
   by decide, by decide, by decide!, by decide!, by decide!⟩

/-- Claim C10, amended: swapping the arguments leaves the interior-
crossing check, the vertex-on-edge checks and the containment stage
unchanged, so classification is symmetric whenever the collinear-overlap
touching test (the only asymmetric ingredient, since it builds the line
only from the first polygon's edge) fires equally in both orders. -/
theorem claim10_amended (poly1 poly2 : Polygon)
    (h : collinearCheck poly1 poly2 = collinearCheck poly2 poly1) :
    classifyPolygons poly1 poly2 = classifyPolygons poly2 poly1 := by
  have hsh : ∀ x y z : Bool, (x || y || z) = (z || y || x) := by decide
  unfold classifyPolygons
  rw [intersectingCheck_symm poly1 poly2,
    touchingLoopC_eq poly1 poly2, touchingLoopC_eq poly2 poly1, h,
    hsh (vertexCheck poly1 poly2) (collinearCheck poly2 poly1) (vertexCheck poly2 poly1),
    Bool.or_comm (containsAllCheck poly1 poly2) (containsAllCheck poly2 poly1)]

/-- Witness for the amended claim C10: two far-apart unit squares, where
the collinear test fires in neither order. -/
theorem claim10_amended_witness :
    classifyPolygons sqEx1 sqEx2 = classifyPolygons sqEx2 sqEx1 :=
  claim10_amended sqEx1 sqEx2 (by decide!)

end PolygonIntersection
